/-
Verification of the EventGen (wsprot) protocol library against its design
specification.

The development shallowly embeds the Python modules `wsprot/schema.py`,
`wsprot/registry.py` and `wsprot/dispatcher.py`:

* JSON-like runtime values are `JsonPrim` / `JsonValue` (payload values are
  modelled one level deep: every claim under scrutiny only concerns flat
  message objects, so object and array elements are primitives here);
* Python `dict[str, ·]` objects are ordered association lists (`Dict α`)
  with Python's insertion-order preserving update semantics;
* exceptions are modelled with `Except`; the error type `PyErr` carries one
  constructor per exception class the parser can actually raise, plus a
  `schemaError` constructor for the `SchemaError` class the specification
  describes, so that the question "does parsing fail with SchemaError?" is
  expressible;
* a Python input document (`dict[str, Any]` from YAML/JSON) is the record
  `ProtocolDoc`: each `Option` field models the presence or absence of the
  corresponding dictionary key, with values assumed well-shaped (all the
  documents the claims quantify over are of this form).
-/
import Mathlib

set_option autoImplicit false

namespace EventGen

/-! ## JSON-like values -/

/-- A primitive JSON value (string, integer, boolean, or null). -/
inductive JsonPrim where
  | jstr (s : String)
  | jint (n : Int)
  | jbool (b : Bool)
  | jnull
  deriving DecidableEq, Repr

/-- A decoded JSON value as produced by `json.loads`.  Containers are one
level deep: their elements are primitives, which covers every message shape
the claims quantify over. -/
inductive JsonValue where
  | prim (p : JsonPrim)
  | jarr (xs : List JsonPrim)
  | jobj (kvs : List (String × JsonPrim))
  deriving DecidableEq, Repr

/-- Ordered string-keyed dictionary, as Python's `dict` (insertion order,
update-in-place on existing keys). -/
abbrev Dict (α : Type) : Type := List (String × α)

namespace Dict

/-- `d.get k` / `k in d`: the value stored under the first (unique) matching
key. -/
def get? {α : Type} (d : Dict α) (k : String) : Option α :=
  match d with
  | [] => none
  | (k', v) :: rest => if k' = k then some v else get? rest k

/-- `d[k] = v`: Python dict update — replaces the value in place when the key
is present, appends otherwise. -/
def insert {α : Type} (d : Dict α) (k : String) (v : α) : Dict α :=
  match d with
  | [] => [(k, v)]
  | (k', v') :: rest => if k' = k then (k', v) :: rest else (k', v') :: insert rest k v

end Dict

/-! ## `wsprot/schema.py` — the schema model -/

/-- `Direction`: direction of message flow. -/
inductive Direction where
  | CLIENT_TO_SERVER
  | SERVER_TO_CLIENT
  | BIDIRECTIONAL
  deriving DecidableEq, Repr

/-- `Direction(value)`: the enum constructor by value; `none` models the
`ValueError` Python raises for an unrecognized value. -/
def Direction.ofString? : String → Option Direction
  | "client_to_server" => some .CLIENT_TO_SERVER
  | "server_to_client" => some .SERVER_TO_CLIENT
  | "bidirectional" => some .BIDIRECTIONAL
  | _ => none

/-- `str.lower()` on a type token (all type tokens are ASCII, so per-char
lowercasing coincides with Python's `str.lower`; `String.toLower` itself is
not kernel-reducible). -/
def pyLower (s : String) : String := ⟨s.data.map Char.toLower⟩

/-- `TYPE_MAP`: mapping of simple type names to Python type hints, as a
lookup function. -/
def TYPE_MAP : String → Option String
  | "str" => some "str"
  | "string" => some "str"
  | "int" => some "int"
  | "integer" => some "int"
  | "float" => some "float"
  | "number" => some "float"
  | "bool" => some "bool"
  | "boolean" => some "bool"
  | "any" => some "Any"
  | "none" => some "None"
  | "null" => some "None"
  | _ => none

/-- `Field` dataclass: a single field in an event payload.  `default = none`
models Python's `default=None`, which the code cannot tell apart from an
absent default. -/
structure Field where
  name : String
  type : String
  required : Bool := true
  default : Option JsonPrim := none
  description : Option String := none
  «alias» : Option String := none
  deriving DecidableEq, Repr

/-- The `base_type` local variable of `Field.python_type`: custom types are
checked first, then lowercased simple-type lookup in `TYPE_MAP`, and
otherwise the token passes through.  `custom_types = []` covers both
`custom_types=None` and an empty dict (both falsy in `if custom_types and
self.type in custom_types`). -/
def Field.base_python_type (f : Field) (custom_types : Dict (List String)) : String :=
  if custom_types ≠ [] ∧ Dict.get? custom_types f.type ≠ none then
    f.type ++ "Enum"
  else
    match TYPE_MAP (pyLower f.type) with
    | some t => t
    | none => f.type

/-- `Field.python_type`: convert the type string to a Python type annotation,
wrapping in `| None` when the field is not required and has no default. -/
def Field.python_type (f : Field) (custom_types : Dict (List String)) : String :=
  let base_type := f.base_python_type custom_types
  if ¬ f.required ∧ f.default = none then base_type ++ " | None" else base_type

/-- `Event` dataclass. -/
structure Event where
  name : String
  direction : Direction
  fields : List Field := []
  description : Option String := none
  class_name : Option String := none
  handler_group : Option String := none
  feature : Option String := none
  deriving DecidableEq, Repr

/-- `Event.is_client_to_server`. -/
def Event.is_client_to_server (e : Event) : Bool :=
  e.direction = Direction.CLIENT_TO_SERVER ∨ e.direction = Direction.BIDIRECTIONAL

/-- `Event.is_server_to_client`. -/
def Event.is_server_to_client (e : Event) : Bool :=
  e.direction = Direction.SERVER_TO_CLIENT ∨ e.direction = Direction.BIDIRECTIONAL

/-! ### Input documents

A structured document, typically deserialized from YAML/JSON, handed to
`Protocol.from_dict`.  Each `Option` field models presence of the dict key. -/

/-- One entry of a `fields:` sequence. -/
structure FieldDoc where
  name : Option String := none
  type : Option String := none
  required : Option Bool := none
  default : Option JsonPrim := none
  description : Option String := none
  «alias» : Option String := none
  deriving DecidableEq, Repr

/-- One entry of a `client:` / `server:` / `events:` sequence. -/
structure EventDoc where
  name : Option String := none
  direction : Option String := none
  fields : Option (List FieldDoc) := none
  description : Option String := none
  class_name : Option String := none
  handler_group : Option String := none
  deriving DecidableEq, Repr

/-- One feature block: its own `client` / `server` sequences. -/
structure FeatureDoc where
  client : Option (List EventDoc) := none
  server : Option (List EventDoc) := none
  deriving DecidableEq, Repr

/-- A whole input document. `types` and `features` default to `{}` via
`data.get(..., {})`, so they are plain (possibly empty) dictionaries. -/
structure ProtocolDoc where
  name : Option String := none
  version : Option String := none
  description : Option String := none
  client : Option (List EventDoc) := none
  server : Option (List EventDoc) := none
  events : Option (List EventDoc) := none
  types : Dict (List String) := []
  features : Dict FeatureDoc := []
  deriving DecidableEq, Repr

/-- The exceptions `Protocol.from_dict` can raise, plus the `SchemaError`
described by the specification (which no code path constructs). -/
inductive PyErr where
  | keyError (key : String)
  | valueError (value : String)
  | schemaError (path : String)
  deriving DecidableEq, Repr

/-- Whether an exception raised by parsing is the specification's
`SchemaError`. -/
def PyErr.isSchemaError : PyErr → Bool
  | .schemaError _ => true
  | _ => false

/-- `d[k]`: mandatory dictionary access; missing key raises `KeyError`. -/
def require {α : Type} (v : Option α) (key : String) : Except PyErr α :=
  match v with
  | some a => .ok a
  | none => .error (.keyError key)

/-- `Protocol` dataclass: a complete protocol definition. -/
structure Protocol where
  name : String
  events : List Event := []
  version : Option String := none
  description : Option String := none
  types : Dict (List String) := []
  features : Dict FeatureDoc := []
  deriving DecidableEq, Repr

/-- `Protocol.client_to_server_events`. -/
def Protocol.client_to_server_events (p : Protocol) : List Event :=
  p.events.filter (·.is_client_to_server)

/-- `Protocol.server_to_client_events`. -/
def Protocol.server_to_client_events (p : Protocol) : List Event :=
  p.events.filter (·.is_server_to_client)

/-- `Protocol.add_event`: append an event (builder pattern) and return the
updated protocol.  The `direction` argument is `Direction | str`;
`Direction(direction)` raises `ValueError` on an unrecognized string. -/
def Protocol.add_event (p : Protocol) (name : String) (direction : Direction ⊕ String)
    (fields : Option (List Field) := none) (description : Option String := none)
    (class_name : Option String := none) : Except PyErr Protocol :=
  ((match direction with
    | .inl d => Except.ok d
    | .inr s =>
      match Direction.ofString? s with
      | some d => Except.ok d
      | none => Except.error (.valueError s) : Except PyErr Direction)).bind fun dir =>
  Except.ok { p with
    events := p.events ++
      [{ name := name, direction := dir, fields := fields.getD [],
         description := description, class_name := class_name }] }

/-- Body of the `Protocol._parse_fields` comprehension: `f["name"]` and
`f["type"]` raise `KeyError` when missing, the remaining keys use `.get`
with defaults (`required` defaults to `True`). -/
def parseFieldDoc (f : FieldDoc) : Except PyErr Field := do
  let nm ← require f.name "name"
  let ty ← require f.type "type"
  pure { name := nm, type := ty, required := f.required.getD true,
         default := f.default, description := f.description, «alias» := f.alias }

/-- `Protocol._parse_fields`: parse the fields comprehension. -/
def Protocol._parse_fields (fields_data : List FieldDoc) : Except PyErr (List Field) :=
  fields_data.mapM parseFieldDoc

/-- Body of the `Protocol._parse_events` loop (split format).  As in the
source, the `fields` entry is parsed before `event_data["name"]` is read. -/
def parseSplitEvent (direction : Direction) (ed : EventDoc) : Except PyErr Event := do
  let flds ← Protocol._parse_fields (ed.fields.getD [])
  let nm ← require ed.name "name"
  pure { name := nm, direction := direction, fields := flds,
         description := ed.description, class_name := ed.class_name,
         handler_group := ed.handler_group }

/-- `Protocol._parse_events`: parse event definitions with a fixed direction
(split format). -/
def Protocol._parse_events (events_data : List EventDoc) (direction : Direction) :
    Except PyErr (List Event) :=
  events_data.mapM (parseSplitEvent direction)

/-- Body of the unified-format loop of `Protocol.from_dict`: fields are
parsed first, then `event_data["name"]`, then
`Direction(event_data["direction"])` (whose `ValueError` carries the
offending string). -/
def parseUnifiedEvent (ed : EventDoc) : Except PyErr Event :=
  (Protocol._parse_fields (ed.fields.getD [])).bind fun flds =>
  (require ed.name "name").bind fun nm =>
  (require ed.direction "direction").bind fun dirStr =>
  ((match Direction.ofString? dirStr with
    | some d => Except.ok d
    | none => Except.error (.valueError dirStr) : Except PyErr Direction)).bind fun dir =>
  Except.ok { name := nm, direction := dir, fields := flds,
              description := ed.description, class_name := ed.class_name,
              handler_group := ed.handler_group }

/-- Body of the features loop of `Protocol.from_dict`: the event name is
prefixed with the lowercased feature name and a dot, and `handler_group`
defaults to the lowercased feature name. -/
def parseFeatureEvent (feature_name : String) (direction : Direction) (ed : EventDoc) :
    Except PyErr Event := do
  let flds ← Protocol._parse_fields (ed.fields.getD [])
  let nm ← require ed.name "name"
  pure { name := pyLower feature_name ++ "." ++ nm, direction := direction, fields := flds,
         description := ed.description, class_name := ed.class_name,
         handler_group := some (ed.handler_group.getD (pyLower feature_name)),
         feature := some feature_name }

/-- Body of the features loop of `Protocol.from_dict` for one
feature-name/feature-block pair: its `client` events then its `server`
events. -/
def parseFeatureBlock (fb : String × FeatureDoc) : Except PyErr (List Event) := do
  let ce ← (fb.2.client.getD []).mapM (parseFeatureEvent fb.1 .CLIENT_TO_SERVER)
  let se ← (fb.2.server.getD []).mapM (parseFeatureEvent fb.1 .SERVER_TO_CLIENT)
  pure (ce ++ se)

/-- `Protocol.from_dict`: build a `Protocol` from a structured document.
Split format (`client`/`server` keys) takes precedence over the unified
`events` format; feature blocks are additive; `data["name"]` is read last. -/
def Protocol.from_dict (data : ProtocolDoc) : Except PyErr Protocol :=
  (if data.client.isSome || data.server.isSome then do
      let ce ← Protocol._parse_events (data.client.getD []) .CLIENT_TO_SERVER
      let se ← Protocol._parse_events (data.server.getD []) .SERVER_TO_CLIENT
      pure (ce ++ se)
    else if data.events.isSome then
      (data.events.getD []).mapM parseUnifiedEvent
    else
      pure []).bind fun events =>
  (data.features.mapM parseFeatureBlock).bind fun featureEvents =>
  (require data.name "name").bind fun nm =>
  Except.ok { name := nm, events := events ++ featureEvents.flatten,
              version := data.version, description := data.description,
              types := data.types, features := data.features }

/-! ## `wsprot/registry.py` — handler registry

A handler class is modelled by its single-inheritance chain below
`HandlerBase` together with the `@on_event`-decorated methods each class
declares directly (`vars(klass)`, in definition order).  A method is
identified by a numeric id; the decoration metadata is the associated
event-kind string. -/

/-- A handler class: either directly derived from `HandlerBase`, or derived
from another handler class; `ownMethods` lists its directly declared
`@on_event`-decorated methods as (event kind, method id), in definition
order. -/
inductive HandlerClass where
  | base (ownMethods : List (String × Nat))
  | derived (parent : HandlerClass) (ownMethods : List (String × Nat))
  deriving DecidableEq, Repr

/-- The directly declared decorated methods of a class. -/
def HandlerClass.ownMethods : HandlerClass → List (String × Nat)
  | .base ms => ms
  | .derived _ ms => ms

/-- `cls.__mro__` restricted to the classes that can carry decorated
methods: the class itself, then its ancestors up to the one directly below
`HandlerBase` (`HandlerBase` and `object` declare no decorated methods). -/
def HandlerClass.mro : HandlerClass → List HandlerClass
  | .base ms => [.base ms]
  | .derived p ms => .derived p ms :: p.mro

/-- `EventRegistry`: tracks event handlers for a handler class. -/
structure EventRegistry where
  _handlers : Dict Nat
  deriving DecidableEq, Repr

/-- `EventRegistry.register`: `self._handlers[event_type] = handler`. -/
def EventRegistry.register (r : EventRegistry) (event_type : String) (handler : Nat) :
    EventRegistry :=
  ⟨r._handlers.insert event_type handler⟩

/-- `EventRegistry.get_handler`: `self._handlers.get(event_type)`. -/
def EventRegistry.get_handler (r : EventRegistry) (event_type : String) : Option Nat :=
  r._handlers.get? event_type

/-- `EventRegistry.has_handler`: `event_type in self._handlers`. -/
def EventRegistry.has_handler (r : EventRegistry) (event_type : String) : Bool :=
  (r._handlers.get? event_type).isSome

/-- `EventRegistry.event_types`: `list(self._handlers.keys())`. -/
def EventRegistry.event_types (r : EventRegistry) : List String :=
  r._handlers.map (·.1)

/-- `EventRegistry.from_class`: walk the MRO in reverse (most ancestral
first) and register every decorated method of each class, so that more
derived registrations overwrite more ancestral ones for the same kind. -/
def EventRegistry.from_class (handler_class : HandlerClass) : EventRegistry :=
  handler_class.mro.reverse.foldl
    (fun registry klass =>
      klass.ownMethods.foldl
        (fun registry entry => registry.register entry.1 entry.2) registry)
    ⟨[]⟩

/-- `HandlerBase.get_registry`: the registry is built lazily per concrete
class and cached on that exact class; the cache is an optimization only, so
the model identifies `get_registry` with `EventRegistry.from_class`. -/
def HandlerClass.get_registry (cls : HandlerClass) : EventRegistry :=
  EventRegistry.from_class cls

/-- `HandlerBase.get_handler` on an instance: look the event kind up in the
class's registry (method binding is immaterial here). -/
def HandlerClass.get_handler (cls : HandlerClass) (event_type : String) : Option Nat :=
  cls.get_registry.get_handler event_type

/-- `HandlerBase.handles_event`. -/
def HandlerClass.handles_event (cls : HandlerClass) (event_type : String) : Bool :=
  cls.get_registry.has_handler event_type

/-- The effective registration among one class's directly declared methods:
the latest (most recently defined) method registered for the given event
kind, if any.  Used to specify `EventRegistry.from_class`. -/
def lastReg (ms : List (String × Nat)) (event_type : String) : Option Nat :=
  match ms with
  | [] => none
  | (k, v) :: rest =>
    match lastReg rest event_type with
    | some r => some r
    | none => if k = event_type then some v else none

/-! ## `wsprot/dispatcher.py` — runtime dispatch -/

/-- The `DispatchError` family.  `validationFailure` is the source's
`ValidationError_` and carries its per-field error descriptors. -/
inductive DispatchErr where
  | parseError (msg : String)
  | validationFailure (errors : List String)
  | unknownEvent (event_type : String)
  | noHandler (event_type : String)
  deriving DecidableEq, Repr

/-- Discriminates `ValidationError_` among dispatch errors. -/
def DispatchErr.isValidationFailure : DispatchErr → Bool
  | .validationFailure _ => true
  | _ => false

/-- Raw dispatcher input: a JSON text (`str`/`bytes`) or an already-decoded
structured value. -/
inductive RawInput where
  | text (s : String)
  | value (v : JsonValue)

/-- `isinstance(v, dict)`: whether a decoded value is a JSON object. -/
def JsonValue.isObj : JsonValue → Bool
  | .jobj _ => true
  | _ => false

/-- A field of a generated message model.

Modelled from the spec: the generator module emitting the Pydantic message
classes is not under `src/`; per the spec each message field has a name, a
primitive resolved type, and a required flag. -/
structure FieldSpec where
  name : String
  type : JsonPrim → Bool
  required : Bool

/-- Field-type membership tests for the modelled primitive types. -/
def isStr : JsonPrim → Bool
  | .jstr _ => true
  | _ => false

/-- Integer field-type test. -/
def isInt : JsonPrim → Bool
  | .jint _ => true
  | _ => false

/-- Boolean field-type test. -/
def isBool : JsonPrim → Bool
  | .jbool _ => true
  | _ => false

/-- One member of the discriminated union: its literal discriminator value
and its payload fields.

Modelled from the spec: the union members are the generated per-event
message classes, each carrying a literal discriminator equal to the event's
name. -/
structure UnionMember where
  disc : String
  fields : List FieldSpec

/-- A validated message: the discriminator value it matched together with
its decoded payload. -/
structure Message where
  eventType : String
  payload : List (String × JsonPrim)
  deriving DecidableEq, Repr

/-- Per-field validation of a payload against a member's field list.

Modelled from the spec: validation reports a list of per-field error
descriptors — a missing required field or a value of the wrong type. -/
def validateFields (specs : List FieldSpec) (kvs : List (String × JsonPrim)) : List String :=
  specs.foldr
    (fun fs acc =>
      match Dict.get? kvs fs.name with
      | some v => if fs.type v then acc else ("wrong type for field " ++ fs.name) :: acc
      | none => if fs.required then ("missing required field " ++ fs.name) :: acc else acc)
    []

/-- `TypeAdapter(message_type).validate_python(parsed)`.

Modelled from the spec: Pydantic discriminated-union validation of the
generated models — read the discriminator field, select the union member
whose literal matches its value (no member ⇒ validation error), then check
the member's fields. -/
def validateUnion (discriminator : String) (members : List UnionMember) :
    JsonValue → Except (List String) Message
  | .jobj kvs =>
    match Dict.get? kvs discriminator with
    | some (.jstr tag) =>
      match members.find? (fun m => m.disc == tag) with
      | some mem =>
        match validateFields mem.fields kvs with
        | [] => .ok ⟨tag, kvs⟩
        | errs => .error errs
      | none => .error ["no union member tagged " ++ tag]
    | _ => .error ["missing discriminator field " ++ discriminator]
  | _ => .error ["input is not an object"]

/-- The `Dispatcher` state: the union type it validates against, the handler
instance, the discriminator field name, whether an `on_error` callback is
configured, and the external JSON decoder (`json.loads`, whose `error`
result models `json.JSONDecodeError` with its diagnostic text). -/
structure Dispatcher where
  decode : String → Except String JsonValue
  members : List UnionMember
  handler : HandlerClass
  discriminator : String := "type"
  onErrorConfigured : Bool := false

/-- The decode stage shared by `Dispatcher` and `MultiDispatcher`:
JSON-decode textual/binary input (`json.JSONDecodeError` → `ParseError`
wrapping the decode diagnostic), pass an already-decoded value through. -/
def decodeInput (decode : String → Except String JsonValue) :
    RawInput → Except DispatchErr JsonValue
  | .text s =>
    match decode s with
    | .ok v => .ok v
    | .error e => .error (.parseError ("Invalid JSON: " ++ e))
  | .value v => .ok v

/-- `Dispatcher.parse`: JSON-decode textual input (failure → `ParseError`
wrapping the decode diagnostic), reject non-object values with `ParseError`,
then validate against the union (failure → `ValidationError_` carrying the
error descriptors). -/
def Dispatcher.parse (d : Dispatcher) (data : RawInput) : Except DispatchErr Message :=
  (decodeInput d.decode data).bind fun parsed =>
  match parsed with
  | .jobj _ =>
    match validateUnion d.discriminator d.members parsed with
    | .ok message => Except.ok message
    | .error errs => Except.error (.validationFailure errs)
  | _ => Except.error (.parseError "Message must be a JSON object")

/-- `Dispatcher.get_event_type`: `getattr(message, self.discriminator)` —
the discriminator value recorded on the validated message. -/
def Dispatcher.get_event_type (_d : Dispatcher) (message : Message) : String :=
  message.eventType

/-- The observable outcome of one dispatch call: the returned value or
raised error, the errors delivered to the `on_error` callback, and the
event kinds for which a handler method was invoked. -/
structure Outcome (α : Type) where
  result : Except DispatchErr α
  errorCallbacks : List DispatchErr
  handlerCalls : List String
  deriving Repr

/-- The `try` body shared by `dispatch` and `dispatch_sync`: parse and
validate, read the event type, look up the handler method
(absence → `NoHandlerError`), and invoke it.  Invoking method `m` on
message `msg` is modelled as returning `(m, msg)` and logging the event
kind. -/
def Dispatcher.dispatchInner (d : Dispatcher) (data : RawInput) :
    Except DispatchErr (Nat × Message) × List String :=
  match d.parse data with
  | .error e => (.error e, [])
  | .ok message =>
    let event_type := d.get_event_type message
    match d.handler.get_handler event_type with
    | none => (.error (.noHandler event_type), [])
    | some handler_method => (.ok (handler_method, message), [event_type])

/-- `Dispatcher.dispatch`: run the stages; any `DispatchError` is delivered
to the `on_error` callback (when configured) and then re-raised. -/
def Dispatcher.dispatch (d : Dispatcher) (data : RawInput) : Outcome (Nat × Message) :=
  match Dispatcher.dispatchInner d data with
  | (.error e, calls) =>
    ⟨.error e, if d.onErrorConfigured then [e] else [], calls⟩
  | (.ok v, calls) => ⟨.ok v, [], calls⟩

/-- `Dispatcher.dispatch_sync`: the same stages with no `try`/`except` —
errors propagate without touching the `on_error` callback. -/
def Dispatcher.dispatch_sync (d : Dispatcher) (data : RawInput) : Outcome (Nat × Message) :=
  match Dispatcher.dispatchInner d data with
  | (r, calls) => ⟨r, [], calls⟩

/-! ### `MultiDispatcher` -/

/-- `MultiDispatcher`: an ordered list of (matcher, handler) pairs plus an
optional default handler. -/
structure MultiDispatcher where
  decode : String → Except String JsonValue
  members : List UnionMember
  discriminator : String := "type"
  _handlers : List ((String → Bool) × HandlerClass) := []
  _default_handler : Option HandlerClass := none

/-- `MultiDispatcher.register`: `prefix` installs a starts-with matcher
(taking precedence over an explicit matcher); with neither a prefix nor a
matcher, `ValueError` is raised. -/
def MultiDispatcher.register (m : MultiDispatcher) (handler : HandlerClass)
    (pfx : Option String := none) (matcher : Option (String → Bool) := none) :
    Except String MultiDispatcher :=
  match pfx with
  | some p => .ok { m with _handlers := m._handlers ++ [(fun et => et.startsWith p, handler)] }
  | none =>
    match matcher with
    | some f => .ok { m with _handlers := m._handlers ++ [(f, handler)] }
    | none => .error "Must provide either prefix or matcher"

/-- `MultiDispatcher.set_default`. -/
def MultiDispatcher.set_default (m : MultiDispatcher) (handler : HandlerClass) :
    MultiDispatcher :=
  { m with _default_handler := some handler }

/-- `MultiDispatcher._find_handler`: the first registered pair whose matcher
accepts the event type and whose handler's registry contains it; otherwise
the default handler, provided its registry contains the event type. -/
def MultiDispatcher._find_handler (m : MultiDispatcher) (event_type : String) :
    Option HandlerClass :=
  match m._handlers.find? (fun pr => pr.1 event_type && pr.2.handles_event event_type) with
  | some pr => some pr.2
  | none =>
    match m._default_handler with
    | some dh => if dh.handles_event event_type then some dh else none
    | none => none

/-- The observable outcome of one `MultiDispatcher.dispatch` call (the class
defines no error callback). -/
structure MOutcome (α : Type) where
  result : Except DispatchErr α
  handlerCalls : List String

/-- The raw discriminator read `parsed.get(self.discriminator)` with its
`is None` check; a JSON `null` value is Python `None` and therefore also
counts as missing (non-string discriminator values are outside the modelled
input domain). -/
def rawEventType (kvs : List (String × JsonPrim)) (discriminator : String) : Option String :=
  match Dict.get? kvs discriminator with
  | some (.jstr s) => some s
  | _ => none

/-- `MultiDispatcher.dispatch`: decode, reject non-objects with
`ParseError`, read the raw discriminator (missing → `ValidationError_`),
find the handler (`_find_handler`; none → `NoHandlerError`), validate
against the union, then look up and invoke the handler method. -/
def MultiDispatcher.dispatch (m : MultiDispatcher) (data : RawInput) :
    MOutcome (Nat × Message) :=
  match decodeInput m.decode data with
  | .error e => ⟨.error e, []⟩
  | .ok parsed =>
    match parsed with
    | .jobj kvs =>
      match rawEventType kvs m.discriminator with
      | none =>
        ⟨.error (.validationFailure ["Missing discriminator field: " ++ m.discriminator]), []⟩
      | some event_type =>
        match m._find_handler event_type with
        | none => ⟨.error (.noHandler event_type), []⟩
        | some handler =>
          match validateUnion m.discriminator m.members parsed with
          | .error errs => ⟨.error (.validationFailure errs), []⟩
          | .ok message =>
            match handler.get_handler event_type with
            | none => ⟨.error (.noHandler event_type), []⟩
            | some handler_method => ⟨.ok (handler_method, message), [event_type]⟩
    | _ => ⟨.error (.parseError "Message must be a JSON object"), []⟩

/-! ## General-purpose lemmas -/

/-- Splitting a successful `Except` bind. -/
theorem except_bind_ok {ε α β : Type} {x : Except ε α} {f : α → Except ε β} {c : β}
    (h : x.bind f = .ok c) : ∃ b, x = .ok b ∧ f b = .ok c := by
  cases x with
  | error e => exact absurd h (by simp [Except.bind])
  | ok b => exact ⟨b, rfl, h⟩

/-- Splitting a failed `Except` bind. -/
theorem except_bind_error {ε α β : Type} {x : Except ε α} {f : α → Except ε β} {e : ε}
    (h : x.bind f = .error e) : x = .error e ∨ ∃ b, x = .ok b ∧ f b = .error e := by
  cases x with
  | error e' =>
    left
    simp only [Except.bind] at h
    injection h with h'
    exact h' ▸ rfl
  | ok b => exact .inr ⟨b, rfl, h⟩

/-- Every element of a successfully `mapM`ed list has a successful image in
the result. -/
theorem mapM_ok_mem {ε α β : Type} (f : α → Except ε β) :
    ∀ (xs : List α) (ys : List β), xs.mapM f = .ok ys →
      ∀ {x : α}, x ∈ xs → ∃ y, f x = .ok y ∧ y ∈ ys := by
  intro xs
  induction xs with
  | nil => intro ys _ x hx; cases hx
  | cons a l ih =>
    intro ys h x hx
    rw [List.mapM_cons] at h
    obtain ⟨b, hb, h⟩ := except_bind_ok h
    obtain ⟨bs, hbs, h⟩ := except_bind_ok h
    cases h
    rcases List.mem_cons.mp hx with rfl | hx
    · exact ⟨b, hb, List.mem_cons_self _ _⟩
    · obtain ⟨y, hy, hmem⟩ := ih bs hbs hx
      exact ⟨y, hy, List.mem_cons_of_mem _ hmem⟩

/-- Every error a `mapM` over `Except` fails with is an error of one of the
mapped elements. -/
theorem mapM_error_mem {ε α β : Type} (f : α → Except ε β) :
    ∀ (xs : List α) (e : ε), xs.mapM f = .error e → ∃ x ∈ xs, f x = .error e := by
  intro xs
  induction xs with
  | nil => intro e h; exact absurd h (by intro h; cases h)
  | cons a l ih =>
    intro e h
    rw [List.mapM_cons] at h
    rcases except_bind_error h with h | ⟨b, hb, h⟩
    · exact ⟨a, List.mem_cons_self _ _, h⟩
    · rcases except_bind_error h with h | ⟨bs, hbs, h⟩
      · obtain ⟨x, hx, hfx⟩ := ih _ h
        exact ⟨x, List.mem_cons_of_mem _ hx, hfx⟩
      · exact absurd h (by intro h; cases h)

/-- Lookup after a Python-dict update. -/
theorem Dict.get?_insert {α : Type} (d : Dict α) (k k' : String) (v : α) :
    Dict.get? (d.insert k v) k' = if k = k' then some v else d.get? k' := by
  induction d with
  | nil =>
    simp only [Dict.insert, Dict.get?]
  | cons hd tl ih =>
    obtain ⟨k₀, v₀⟩ := hd
    by_cases h₀ : k₀ = k
    · subst h₀
      simp only [Dict.insert, if_pos rfl, Dict.get?]
      by_cases h₁ : k₀ = k' <;> simp [h₁]
    · simp only [Dict.insert, if_neg h₀, Dict.get?]
      by_cases h₁ : k₀ = k'
      · subst h₁
        rw [if_pos rfl, if_pos rfl, if_neg (fun h => h₀ h.symm)]
      · rw [if_neg h₁, if_neg h₁, ih]

/-- Registering a list of (kind, method) pairs on top of an existing
registry: the latest registration for the kind wins, otherwise the existing
entry persists. -/
theorem get_handler_foldl_register (ms : List (String × Nat)) (r : EventRegistry)
    (et : String) :
    (ms.foldl (fun registry entry => registry.register entry.1 entry.2) r).get_handler et
      = match lastReg ms et with
        | some m => some m
        | none => r.get_handler et := by
  induction ms generalizing r with
  | nil => simp [lastReg]
  | cons p rest ih =>
    obtain ⟨k, v⟩ := p
    rw [List.foldl_cons, ih]
    simp only [lastReg]
    cases hrest : lastReg rest et with
    | some m => simp
    | none =>
      simp only [EventRegistry.register, EventRegistry.get_handler, Dict.get?_insert]
      by_cases hk : k = et <;> simp [hk]

/-- `EventRegistry.from_class` on a class directly below `HandlerBase`. -/
theorem from_class_base (mb : List (String × Nat)) (et : String) :
    (EventRegistry.from_class (.base mb)).get_handler et = lastReg mb et := by
  show (mb.foldl (fun (registry : EventRegistry) entry => registry.register entry.1 entry.2)
      (⟨[]⟩ : EventRegistry)).get_handler et = lastReg mb et
  rw [get_handler_foldl_register]
  cases lastReg mb et <;> rfl

/-- `EventRegistry.from_class` on a one-step derived class: the subclass's
own latest registration wins, otherwise the base entry is inherited. -/
theorem from_class_derived (mb md : List (String × Nat)) (et : String) :
    (EventRegistry.from_class (.derived (.base mb) md)).get_handler et
      = match lastReg md et with
        | some m => some m
        | none => lastReg mb et := by
  show (md.foldl (fun (registry : EventRegistry) entry => registry.register entry.1 entry.2)
      (mb.foldl (fun (registry : EventRegistry) entry => registry.register entry.1 entry.2)
        (⟨[]⟩ : EventRegistry))).get_handler et = _
  rw [get_handler_foldl_register, get_handler_foldl_register]
  cases lastReg md et with
  | some m => rfl
  | none => cases lastReg mb et <;> rfl

/-- `require` only ever raises `KeyError` for the requested key. -/
theorem require_error {α : Type} {v : Option α} {k : String} {e : PyErr}
    (h : require v k = .error e) : e = .keyError k := by
  cases v with
  | none =>
    injection h with h
    exact h.symm
  | some a => cases h

/-- `parseFieldDoc` never raises the specification's `SchemaError`. -/
theorem parseFieldDoc_error {f : FieldDoc} {e : PyErr} (h : parseFieldDoc f = .error e) :
    e.isSchemaError = false := by
  unfold parseFieldDoc at h
  rcases except_bind_error h with h | ⟨nm, hnm, h⟩
  · rw [require_error h]; rfl
  rcases except_bind_error h with h | ⟨ty, hty, h⟩
  · rw [require_error h]; rfl
  cases h

/-- `Protocol._parse_fields` never raises `SchemaError`. -/
theorem parse_fields_error {fds : List FieldDoc} {e : PyErr}
    (h : Protocol._parse_fields fds = .error e) : e.isSchemaError = false := by
  obtain ⟨fd, _, hfd⟩ := mapM_error_mem parseFieldDoc fds e h
  exact parseFieldDoc_error hfd

/-- `parseSplitEvent` never raises `SchemaError`. -/
theorem parseSplitEvent_error {dir : Direction} {ed : EventDoc} {e : PyErr}
    (h : parseSplitEvent dir ed = .error e) : e.isSchemaError = false := by
  unfold parseSplitEvent at h
  rcases except_bind_error h with h | ⟨flds, hflds, h⟩
  · exact parse_fields_error h
  rcases except_bind_error h with h | ⟨nm, hnm, h⟩
  · rw [require_error h]; rfl
  cases h

/-- `parseUnifiedEvent` never raises `SchemaError`. -/
theorem parseUnifiedEvent_error {ed : EventDoc} {e : PyErr}
    (h : parseUnifiedEvent ed = .error e) : e.isSchemaError = false := by
  unfold parseUnifiedEvent at h
  rcases except_bind_error h with h | ⟨flds, hflds, h⟩
  · exact parse_fields_error h
  rcases except_bind_error h with h | ⟨nm, hnm, h⟩
  · rw [require_error h]; rfl
  rcases except_bind_error h with h | ⟨ds, hds, h⟩
  · rw [require_error h]; rfl
  rcases except_bind_error h with h | ⟨dir, hdir, h⟩
  · cases hd : Direction.ofString? ds with
    | some dirv => rw [hd] at h; cases h
    | none =>
      rw [hd] at h
      injection h with h
      rw [← h]
      rfl
  cases h

/-- `parseFeatureEvent` never raises `SchemaError`. -/
theorem parseFeatureEvent_error {fn : String} {dir : Direction} {ed : EventDoc} {e : PyErr}
    (h : parseFeatureEvent fn dir ed = .error e) : e.isSchemaError = false := by
  unfold parseFeatureEvent at h
  rcases except_bind_error h with h | ⟨flds, hflds, h⟩
  · exact parse_fields_error h
  rcases except_bind_error h with h | ⟨nm, hnm, h⟩
  · rw [require_error h]; rfl
  cases h

/-- `parseFeatureBlock` never raises `SchemaError`. -/
theorem parseFeatureBlock_error {fb : String × FeatureDoc} {e : PyErr}
    (h : parseFeatureBlock fb = .error e) : e.isSchemaError = false := by
  unfold parseFeatureBlock at h
  rcases except_bind_error h with h | ⟨ce, hce, h⟩
  · obtain ⟨ed, _, hed⟩ := mapM_error_mem _ _ _ h
    exact parseFeatureEvent_error hed
  rcases except_bind_error h with h | ⟨se, hse, h⟩
  · obtain ⟨ed, _, hed⟩ := mapM_error_mem _ _ _ h
    exact parseFeatureEvent_error hed
  cases h

/-- `Protocol.from_dict` never raises `SchemaError`: its failures are the
builtin `KeyError` and `ValueError` exceptions. -/
theorem from_dict_error_not_schema {d : ProtocolDoc} {e : PyErr}
    (h : Protocol.from_dict d = .error e) : e.isSchemaError = false := by
  unfold Protocol.from_dict at h
  rcases except_bind_error h with h | ⟨evs, hevs, h⟩
  · split at h
    · rcases except_bind_error h with h | ⟨ce, hce, h⟩
      · obtain ⟨ed, _, hed⟩ := mapM_error_mem _ _ _ h
        exact parseSplitEvent_error hed
      rcases except_bind_error h with h | ⟨se, hse, h⟩
      · obtain ⟨ed, _, hed⟩ := mapM_error_mem _ _ _ h
        exact parseSplitEvent_error hed
      cases h
    · split at h
      · obtain ⟨ed, _, hed⟩ := mapM_error_mem _ _ _ h
        exact parseUnifiedEvent_error hed
      · cases h
  rcases except_bind_error h with h | ⟨fes, hfes, h⟩
  · obtain ⟨fb, _, hfb⟩ := mapM_error_mem _ _ _ h
    exact parseFeatureBlock_error hfb
  rcases except_bind_error h with h | ⟨nm, hnm, h⟩
  · rw [require_error h]; rfl
  cases h

/-- Successful mandatory access reveals the key was present. -/
theorem require_ok {α : Type} {v : Option α} {k : String} {a : α}
    (h : require v k = .ok a) : v = some a := by
  cases v with
  | none => cases h
  | some b =>
    injection h with h
    rw [h]

/-- Inversion of a successful `parseFeatureEvent`: the produced event is the
feature-prefixed, direction-tagged event with the defaulted handler group. -/
theorem parseFeatureEvent_ok {fn : String} {dir : Direction} {ed : EventDoc} {ev : Event}
    (h : parseFeatureEvent fn dir ed = .ok ev) :
    ∃ en flds, ed.name = some en
      ∧ Protocol._parse_fields (ed.fields.getD []) = .ok flds
      ∧ ev = { name := pyLower fn ++ "." ++ en, direction := dir, fields := flds,
               description := ed.description, class_name := ed.class_name,
               handler_group := some (ed.handler_group.getD (pyLower fn)),
               feature := some fn } := by
  unfold parseFeatureEvent at h
  rcases except_bind_ok h with ⟨flds, hflds, h⟩
  rcases except_bind_ok h with ⟨nm, hnm, h⟩
  injection h with h
  exact ⟨nm, flds, require_ok hnm, hflds, h.symm⟩

/-! ## Claim C3 — malformed documents -/

/-- C3 counterexample: the claim says malformed documents fail with a
`SchemaError` reporting the offending event/field path.  At the concrete
document `{name: p, events: [{name: x, direction: sideways}]}` parsing fails
with the bare `ValueError` of the `Direction` constructor, and at
`{name: p, events: [{name: x, direction: client_to_server,
fields: [{type: str}]}]}` with a bare `KeyError` — neither is a
`SchemaError`, and no `SchemaError` class exists in the code. -/
theorem c3_counterexample :
    (Protocol.from_dict
        { name := some "p",
          events := some [{ name := some "x", direction := some "sideways" }] }
      = .error (.valueError "sideways"))
  ∧ (PyErr.valueError "sideways").isSchemaError = false
  ∧ (Protocol.from_dict
        { name := some "p",
          events := some [{ name := some "x", direction := some "client_to_server",
                            fields := some [{ type := some "str" }] }] }
      = .error (.keyError "name"))
  ∧ (PyErr.keyError "name").isSchemaError = false := by
  exact ⟨rfl, rfl, rfl, rfl⟩

/-- C3 amended: parsing a unified-format event with an unrecognized
direction string fails with the `ValueError` carrying that string; a field
definition missing `name` (resp. `type`) fails with `KeyError "name"`
(resp. `KeyError "type"`); and no failure of `Protocol.from_dict` is ever
the specification's `SchemaError` naming the event/field path — the parser
only raises the bare builtin exceptions. -/
theorem c3_amended_malformed_documents :
    (∀ (d : ProtocolDoc) (ed : EventDoc) (en ds : String) (flds : List Field),
        d.client = none → d.server = none → d.events = some [ed] →
        Protocol._parse_fields (ed.fields.getD []) = .ok flds →
        ed.name = some en → ed.direction = some ds → Direction.ofString? ds = none →
        Protocol.from_dict d = .error (.valueError ds))
  ∧ (∀ (d : ProtocolDoc) (ed : EventDoc) (fd : FieldDoc),
        d.client = none → d.server = none → d.events = some [ed] →
        ed.fields = some [fd] → fd.name = none →
        Protocol.from_dict d = .error (.keyError "name"))
  ∧ (∀ (d : ProtocolDoc) (ed : EventDoc) (fd : FieldDoc) (fn : String),
        d.client = none → d.server = none → d.events = some [ed] →
        ed.fields = some [fd] → fd.name = some fn → fd.type = none →
        Protocol.from_dict d = .error (.keyError "type"))
  ∧ (∀ (d : ProtocolDoc) (e : PyErr),
        Protocol.from_dict d = .error e → e.isSchemaError = false) := by
  refine ⟨?_, ?_, ?_, fun d e h => from_dict_error_not_schema h⟩
  · intro d ed en ds flds hc hs he hf hn hd hds
    unfold Protocol.from_dict
    rw [hc, hs, he]
    simp only [Option.isSome_none, Bool.or_self, Bool.false_eq_true, if_false,
      Option.isSome_some, if_true, Option.getD_some, List.mapM_cons, List.mapM_nil]
    unfold parseUnifiedEvent
    rw [hf, hn, hd]
    simp only [require, Except.bind]
    rw [hds]
    rfl
  · intro d ed fd hc hs he hfd hn
    unfold Protocol.from_dict
    rw [hc, hs, he]
    simp only [Option.isSome_none, Bool.or_self, Bool.false_eq_true, if_false,
      Option.isSome_some, if_true, Option.getD_some, List.mapM_cons, List.mapM_nil]
    unfold parseUnifiedEvent Protocol._parse_fields parseFieldDoc
    rw [hfd]
    simp only [Option.getD_some, List.mapM_cons, List.mapM_nil]
    rw [hn]
    simp only [require, Except.bind]
    rfl
  · intro d ed fd fn hc hs he hfd hn ht
    unfold Protocol.from_dict
    rw [hc, hs, he]
    simp only [Option.isSome_none, Bool.or_self, Bool.false_eq_true, if_false,
      Option.isSome_some, if_true, Option.getD_some, List.mapM_cons, List.mapM_nil]
    unfold parseUnifiedEvent Protocol._parse_fields parseFieldDoc
    rw [hfd]
    simp only [Option.getD_some, List.mapM_cons, List.mapM_nil]
    rw [hn, ht]
    simp only [require, Except.bind]
    rfl

/-- C3 witness: the three failure modes of the amended claim at concrete
documents. -/
theorem c3_amended_malformed_documents_witness :
    Protocol.from_dict
        { name := some "p",
          events := some [{ name := some "j", direction := some "both" }] }
      = .error (.valueError "both")
  ∧ Protocol.from_dict
        { name := some "p",
          events := some [{ name := some "j", direction := some "bidirectional",
                            fields := some [{ type := some "int" }] }] }
      = .error (.keyError "name")
  ∧ Protocol.from_dict
        { name := some "p",
          events := some [{ name := some "j", direction := some "bidirectional",
                            fields := some [{ name := some "room" }] }] }
      = .error (.keyError "type") := by
  refine ⟨c3_amended_malformed_documents.1 _ _ "j" "both" [] rfl rfl rfl rfl rfl rfl rfl,
    c3_amended_malformed_documents.2.1 _ _ { type := some "int" } rfl rfl rfl rfl rfl,
    c3_amended_malformed_documents.2.2.1 _ _ { name := some "room" } "room"
      rfl rfl rfl rfl rfl rfl⟩

/-! ## Claim C6 — feature events -/

/-- C6: for every parsed document, each event under a feature's `client`
sequence yields an Event named `lowercased-feature.event-name` with
direction CLIENT_TO_SERVER (SERVER_TO_CLIENT for the `server` sequence) and
`handler_group` defaulting to the lowercased feature name, present in the
resulting protocol's events. -/
theorem c6_feature_events (d : ProtocolDoc) (p : Protocol) (fn : String) (fc : FeatureDoc)
    (ed : EventDoc) (hd : Protocol.from_dict d = .ok p) (hf : (fn, fc) ∈ d.features) :
    (ed ∈ fc.client.getD [] →
      ∃ en flds, ed.name = some en
        ∧ Protocol._parse_fields (ed.fields.getD []) = .ok flds
        ∧ ({ name := pyLower fn ++ "." ++ en, direction := .CLIENT_TO_SERVER, fields := flds,
             description := ed.description, class_name := ed.class_name,
             handler_group := some (ed.handler_group.getD (pyLower fn)),
             feature := some fn } : Event) ∈ p.events)
  ∧ (ed ∈ fc.server.getD [] →
      ∃ en flds, ed.name = some en
        ∧ Protocol._parse_fields (ed.fields.getD []) = .ok flds
        ∧ ({ name := pyLower fn ++ "." ++ en, direction := .SERVER_TO_CLIENT, fields := flds,
             description := ed.description, class_name := ed.class_name,
             handler_group := some (ed.handler_group.getD (pyLower fn)),
             feature := some fn } : Event) ∈ p.events) := by
  unfold Protocol.from_dict at hd
  rcases except_bind_ok hd with ⟨evs, hevs, hd⟩
  rcases except_bind_ok hd with ⟨fes, hfes, hd⟩
  rcases except_bind_ok hd with ⟨nm, hnm, hd⟩
  injection hd with hd
  obtain ⟨bl, hbl, hblmem⟩ := mapM_ok_mem parseFeatureBlock d.features fes hfes hf
  unfold parseFeatureBlock at hbl
  rcases except_bind_ok hbl with ⟨ce, hce, hbl⟩
  rcases except_bind_ok hbl with ⟨se, hse, hbl⟩
  injection hbl with hbl
  constructor
  · intro hed
    obtain ⟨ev, hev, hevmem⟩ := mapM_ok_mem _ _ _ hce hed
    obtain ⟨en, flds, hen, hflds, hevr⟩ := parseFeatureEvent_ok hev
    refine ⟨en, flds, hen, hflds, ?_⟩
    rw [← hd]
    show _ ∈ evs ++ fes.flatten
    refine List.mem_append_right _ (List.mem_flatten.mpr ⟨bl, hblmem, ?_⟩)
    rw [← hbl, ← hevr]
    exact List.mem_append_left _ hevmem
  · intro hed
    obtain ⟨ev, hev, hevmem⟩ := mapM_ok_mem _ _ _ hse hed
    obtain ⟨en, flds, hen, hflds, hevr⟩ := parseFeatureEvent_ok hev
    refine ⟨en, flds, hen, hflds, ?_⟩
    rw [← hd]
    show _ ∈ evs ++ fes.flatten
    refine List.mem_append_right _ (List.mem_flatten.mpr ⟨bl, hblmem, ?_⟩)
    rw [← hbl, ← hevr]
    exact List.mem_append_right _ hevmem

/-- C6 witness: `features: {Chat: {client: [{name: send, fields: [{name:
text, type: string}]}]}}` yields the event `chat.send` with direction
CLIENT_TO_SERVER and handler group `chat` among the parsed protocol's
events. -/
theorem c6_feature_events_witness :
    ∃ en flds,
      ({ name := some "send",
         fields := some [{ name := some "text", type := some "string" }] } : EventDoc).name
        = some en
    ∧ Protocol._parse_fields
        (({ name := some "send",
            fields := some [{ name := some "text", type := some "string" }] }
          : EventDoc).fields.getD [])
        = .ok flds
    ∧ ({ name := pyLower "Chat" ++ "." ++ en, direction := .CLIENT_TO_SERVER,
         fields := flds, description := none, class_name := none,
         handler_group := some ((none : Option String).getD (pyLower "Chat")),
         feature := some "Chat" } : Event)
        ∈ ({ name := "chatproto",
             events := [{ name := "chat.send", direction := .CLIENT_TO_SERVER,
                          fields := [{ name := "text", type := "string" }],
                          handler_group := some "chat", feature := some "Chat" }],
             features := [("Chat",
               { client := some [{ name := some "send",
                                   fields := some [{ name := some "text",
                                                     type := some "string" }] }] })]
           } : Protocol).events := by
  exact (c6_feature_events
    { name := some "chatproto",
      features := [("Chat",
        { client := some [{ name := some "send",
                            fields := some [{ name := some "text",
                                              type := some "string" }] }] })] }
    { name := "chatproto",
      events := [{ name := "chat.send", direction := .CLIENT_TO_SERVER,
                   fields := [{ name := "text", type := "string" }],
                   handler_group := some "chat", feature := some "Chat" }],
      features := [("Chat",
        { client := some [{ name := some "send",
                            fields := some [{ name := some "text",
                                              type := some "string" }] }] })] }
    "Chat"
    { client := some [{ name := some "send",
                        fields := some [{ name := some "text",
                                          type := some "string" }] }] }
    { name := some "send",
      fields := some [{ name := some "text", type := some "string" }] }
    rfl (by decide)).1 (by decide)

/-! ## Claim C2 — handler-registry override semantics -/

/-- C2: for a base handler class declaring methods `mb` and a derived class
declaring methods `md`, the derived class's resolved registry returns, for
every event kind, the derived class's own latest registration when it has
one (subclass wins) and the base class's registration otherwise
(un-overridden entries are retained); the base class's own registry is built
from `mb` alone.  Concretely, with base `"ping"`→1 and derived `"ping"`→2,
`"pong"`→3, the derived registry maps `"ping"`→2 and `"pong"`→3 while the
base registry maps `"ping"`→1. -/
theorem c2_registry_override (mb md : List (String × Nat)) (et : String) :
    ((HandlerClass.derived (.base mb) md).get_registry.get_handler et
        = match lastReg md et with
          | some m => some m
          | none => lastReg mb et)
  ∧ ((HandlerClass.base mb).get_registry.get_handler et = lastReg mb et)
  ∧ ((HandlerClass.derived (.base [("ping", 1)])
        [("ping", 2), ("pong", 3)]).get_registry.get_handler "ping" = some 2
      ∧ (HandlerClass.derived (.base [("ping", 1)])
          [("ping", 2), ("pong", 3)]).get_registry.get_handler "pong" = some 3
      ∧ (HandlerClass.base [("ping", 1)]).get_registry.get_handler "ping" = some 1) := by
  refine ⟨from_class_derived mb md et, from_class_base mb et, rfl, rfl, rfl⟩

/-! ## Claim C4 — field-type token resolution -/

/-- C4 counterexample: the claim gives exact primitive aliases precedence
over a same-named custom enumeration and passes unrecognized tokens through
unchanged.  The code checks custom enumerations first (`"string"` with a
custom enumeration `"string"` resolves to `"stringEnum"`, not `"str"`), and
matches primitive aliases case-insensitively (`"STRING"` with no custom
enumerations resolves to `"str"` rather than passing through). -/
theorem c4_counterexample :
    (Field.python_type { name := "f", type := "string" } [("string", ["a", "b"])]
        = "stringEnum"
      ∧ "stringEnum" ≠ "str")
  ∧ (Field.python_type { name := "g", type := "STRING" } [] = "str"
      ∧ "str" ≠ "STRING") := by
  exact ⟨⟨by decide, by decide⟩, by decide, by decide⟩

/-- C4 amended: if the token names a custom enumeration it resolves to that
enumeration's generated type name, even when the token is also a primitive
alias; otherwise, if the lowercased token is a primitive alias it resolves
to the corresponding primitive type; otherwise the token passes through
unchanged. -/
theorem c4_amended_type_resolution (f : Field) (cts : Dict (List String)) :
    (Dict.get? cts f.type ≠ none → f.base_python_type cts = f.type ++ "Enum")
  ∧ (Dict.get? cts f.type = none → ∀ t, TYPE_MAP (pyLower f.type) = some t →
        f.base_python_type cts = t)
  ∧ (Dict.get? cts f.type = none → TYPE_MAP (pyLower f.type) = none →
        f.base_python_type cts = f.type) := by
  refine ⟨fun h => ?_, fun h t ht => ?_, fun h ht => ?_⟩
  · have hne : cts ≠ [] := by
      rintro rfl
      exact h rfl
    unfold Field.base_python_type
    rw [if_pos ⟨hne, h⟩]
  · unfold Field.base_python_type
    rw [if_neg (fun hc => hc.2 h)]
    simp [ht]
  · unfold Field.base_python_type
    rw [if_neg (fun hc => hc.2 h)]
    simp [ht]

/-- C4 witness: the three resolution arms at concrete inputs — a custom
enumeration `Color`, the primitive alias `integer`, and the composite token
`list[str]`. -/
theorem c4_amended_type_resolution_witness :
    Field.base_python_type { name := "f", type := "Color" } [("Color", ["red"])]
        = "ColorEnum"
  ∧ Field.base_python_type { name := "f", type := "integer" } [("Color", ["red"])] = "int"
  ∧ Field.base_python_type { name := "f", type := "list[str]" } [] = "list[str]" := by
  refine ⟨(c4_amended_type_resolution _ _).1 (by decide),
    (c4_amended_type_resolution _ _).2.1 (by decide) "int" (by decide),
    (c4_amended_type_resolution _ _).2.2 (by decide) (by decide)⟩

/-! ## Claim C5 — optional fields are nullable -/

/-- C5: a field that is not required and has no default resolves to the base
type wrapped as `| None`; a field that is required or carries a default
resolves to the unwrapped base type. -/
theorem c5_optional_fields_nullable (f : Field) (cts : Dict (List String)) :
    (f.required = false → f.default = none →
        f.python_type cts = f.base_python_type cts ++ " | None")
  ∧ (f.required = true ∨ f.default ≠ none →
        f.python_type cts = f.base_python_type cts) := by
  unfold Field.python_type
  constructor
  · intro h1 h2
    rw [if_pos ⟨by simp [h1], h2⟩]
  · intro h
    rw [if_neg]
    rintro ⟨hn, hd⟩
    rcases h with h | h
    · exact hn (by simp [h])
    · exact h hd

/-- C5 witness: an optional field without a default is nullable; a required
field and an optional field with a default are not. -/
theorem c5_optional_fields_nullable_witness :
    Field.python_type { name := "a", type := "str", required := false } [] = "str | None"
  ∧ Field.python_type { name := "b", type := "str" } [] = "str"
  ∧ Field.python_type
      { name := "c", type := "int", required := false, default := some (.jint 0) } []
      = "int" := by
  have h1 := (c5_optional_fields_nullable
    { name := "a", type := "str", required := false } []).1 rfl rfl
  have h2 := (c5_optional_fields_nullable { name := "b", type := "str" } []).2 (.inl rfl)
  have h3 := (c5_optional_fields_nullable
    { name := "c", type := "int", required := false, default := some (.jint 0) } []).2
    (.inr (by decide))
  refine ⟨?_, ?_, ?_⟩
  · rw [h1]; decide
  · rw [h2]; decide
  · rw [h3]; decide

/-! ## Claim C9 — protocol immutability -/

/-- C9 counterexample: `Protocol.add_event` is an operation exposed by the
core that does change the protocol's event list — starting from a protocol
with no events, it yields one whose `events` differ. -/
theorem c9_counterexample :
    ∃ p' : Protocol,
      Protocol.add_event { name := "p" } "x" (.inl .CLIENT_TO_SERVER) = .ok p'
        ∧ p'.events ≠ ({ name := "p" } : Protocol).events := by
  refine ⟨{ name := "p", events := [{ name := "x", direction := .CLIENT_TO_SERVER }] },
    rfl, by decide⟩

/-- C9 amended: the direction-filtering accessors compute from the protocol
without altering it, and the one mutator, `add_event`, only appends the new
event — name, version, types and features are unchanged. -/
theorem c9_amended_mutation (p : Protocol) (nm : String) (dir : Direction)
    (flds : Option (List Field)) (desc cn : Option String) :
    (∃ p', Protocol.add_event p nm (.inl dir) flds desc cn = .ok p'
      ∧ p'.name = p.name ∧ p'.version = p.version ∧ p'.types = p.types
      ∧ p'.features = p.features
      ∧ p'.events = p.events ++
          [{ name := nm, direction := dir, fields := flds.getD [],
             description := desc, class_name := cn }])
  ∧ p.client_to_server_events = p.events.filter (·.is_client_to_server)
  ∧ p.server_to_client_events = p.events.filter (·.is_server_to_client) := by
  exact ⟨⟨_, rfl, rfl, rfl, rfl, rfl, rfl⟩, rfl, rfl⟩

/-! ## Claim C1 — dispatch error taxonomy -/

/-- C1: dispatching undecodable text raises `ParseError` and invokes no
handler; dispatching a decoded object whose discriminator value names no
union member raises `ValidationFailure` (the source's `ValidationError_`)
and invokes no handler; dispatching a message that validates against the
union but whose event kind has no registered handler raises
`NoHandlerError`. -/
theorem c1_dispatch_error_taxonomy (d : Dispatcher) :
    (∀ s emsg, d.decode s = .error emsg →
        (d.dispatch (.text s)).result = .error (.parseError ("Invalid JSON: " ++ emsg))
      ∧ (d.dispatch (.text s)).handlerCalls = [])
  ∧ (∀ kvs g, Dict.get? kvs d.discriminator = some (.jstr g) →
        (∀ mem ∈ d.members, mem.disc ≠ g) →
        (d.dispatch (.value (.jobj kvs))).result
            = .error (.validationFailure ["no union member tagged " ++ g])
      ∧ (d.dispatch (.value (.jobj kvs))).handlerCalls = [])
  ∧ (∀ v msg, validateUnion d.discriminator d.members v = .ok msg →
        d.handler.get_handler msg.eventType = none →
        (d.dispatch (.value v)).result = .error (.noHandler msg.eventType)
      ∧ (d.dispatch (.value v)).handlerCalls = []) := by
  refine ⟨?_, ?_, ?_⟩
  · intro s emsg h
    have hparse : d.parse (.text s)
        = .error (.parseError ("Invalid JSON: " ++ emsg)) := by
      simp only [Dispatcher.parse, decodeInput, h, Except.bind]
    unfold Dispatcher.dispatch Dispatcher.dispatchInner
    rw [hparse]
    exact ⟨rfl, rfl⟩
  · intro kvs g hdisc hmem
    have hf : d.members.find? (fun m => m.disc == g) = none :=
      List.find?_eq_none.mpr (fun m hm => by simp [hmem m hm])
    have hval : validateUnion d.discriminator d.members (.jobj kvs)
        = .error ["no union member tagged " ++ g] := by
      simp only [validateUnion, hdisc, hf]
    have hparse : d.parse (.value (.jobj kvs))
        = .error (.validationFailure ["no union member tagged " ++ g]) := by
      simp only [Dispatcher.parse, decodeInput, Except.bind, hval]
    unfold Dispatcher.dispatch Dispatcher.dispatchInner
    rw [hparse]
    exact ⟨rfl, rfl⟩
  · intro v msg hval hnh
    cases v with
    | prim p => simp [validateUnion] at hval
    | jarr xs => simp [validateUnion] at hval
    | jobj kvs =>
      have hparse : d.parse (.value (.jobj kvs)) = .ok msg := by
        simp only [Dispatcher.parse, decodeInput, Except.bind, hval]
      unfold Dispatcher.dispatch Dispatcher.dispatchInner
      rw [hparse]
      simp [Dispatcher.get_event_type, hnh]

/-- C1 witness: a concrete dispatcher over a `join` union member whose
handler class registers nothing — undecodable text gives `ParseError`, the
unknown tag `ghost` gives `ValidationFailure`, and a valid `join` message
gives `NoHandlerError`, never invoking a handler. -/
theorem c1_dispatch_error_taxonomy_witness :
    ((Dispatcher.dispatch
        { decode := fun _ => .error "Expecting value",
          members := [{ disc := "join",
                        fields := [{ name := "room", type := isStr, required := true }] }],
          handler := .base [] }
        (.text "not json")).result
      = .error (.parseError "Invalid JSON: Expecting value"))
  ∧ ((Dispatcher.dispatch
        { decode := fun _ => .error "Expecting value",
          members := [{ disc := "join",
                        fields := [{ name := "room", type := isStr, required := true }] }],
          handler := .base [] }
        (.value (.jobj [("type", .jstr "ghost")]))).result
      = .error (.validationFailure ["no union member tagged " ++ "ghost"]))
  ∧ ((Dispatcher.dispatch
        { decode := fun _ => .error "Expecting value",
          members := [{ disc := "join",
                        fields := [{ name := "room", type := isStr, required := true }] }],
          handler := .base [] }
        (.value (.jobj [("type", .jstr "join"), ("room", .jstr "lobby")]))).result
      = .error (.noHandler "join"))
  ∧ ((Dispatcher.dispatch
        { decode := fun _ => .error "Expecting value",
          members := [{ disc := "join",
                        fields := [{ name := "room", type := isStr, required := true }] }],
          handler := .base [] }
        (.value (.jobj [("type", .jstr "ghost")]))).handlerCalls = []) := by
  refine ⟨?_, ?_, ?_, ?_⟩
  · exact ((c1_dispatch_error_taxonomy
      { decode := fun _ => .error "Expecting value",
          members := [{ disc := "join",
                        fields := [{ name := "room", type := isStr, required := true }] }],
          handler := .base [] }).1 "not json" "Expecting value" rfl).1
  · exact ((c1_dispatch_error_taxonomy
      { decode := fun _ => .error "Expecting value",
          members := [{ disc := "join",
                        fields := [{ name := "room", type := isStr, required := true }] }],
          handler := .base [] }).2.1 [("type", .jstr "ghost")] "ghost" rfl
      (by intro mem hm; rw [List.mem_singleton] at hm; rw [hm]; decide)).1
  · exact ((c1_dispatch_error_taxonomy
      { decode := fun _ => .error "Expecting value",
          members := [{ disc := "join",
                        fields := [{ name := "room", type := isStr, required := true }] }],
          handler := .base [] }).2.2
      (.jobj [("type", .jstr "join"), ("room", .jstr "lobby")])
      { eventType := "join",
        payload := [("type", .jstr "join"), ("room", .jstr "lobby")] } rfl rfl).1
  · exact ((c1_dispatch_error_taxonomy
      { decode := fun _ => .error "Expecting value",
          members := [{ disc := "join",
                        fields := [{ name := "room", type := isStr, required := true }] }],
          handler := .base [] }).2.1 [("type", .jstr "ghost")] "ghost" rfl
      (by intro mem hm; rw [List.mem_singleton] at hm; rw [hm]; decide)).2

/-! ## Claim C7 — error callback -/

/-- C7 counterexample: `dispatch_sync` raises a `DispatchError`
(`ParseError` here) with an error callback configured, yet the callback
receives nothing — so not every dispatch entry point reports errors to the
callback before re-raising. -/
theorem c7_counterexample :
    ((Dispatcher.dispatch_sync
        { decode := fun _ => .error "Expecting value", members := [],
          handler := .base [], onErrorConfigured := true }
        (.text "not json")).result
      = .error (.parseError "Invalid JSON: Expecting value"))
  ∧ ((Dispatcher.dispatch_sync
        { decode := fun _ => .error "Expecting value", members := [],
          handler := .base [], onErrorConfigured := true }
        (.text "not json")).errorCallbacks = []) := by
  exact ⟨rfl, rfl⟩

/-- C7 amended: on the async `dispatch` entry point a configured error
callback receives exactly the raised `DispatchError`, which is then still
re-raised (callbacks never change the result: `dispatch` and
`dispatch_sync` return identical results), and nothing reaches the callback
on success; `dispatch_sync`, however, never invokes the callback at all. -/
theorem c7_amended_error_callback (d : Dispatcher) (data : RawInput) :
    (∀ e, (d.dispatch data).result = .error e →
        (d.dispatch data).errorCallbacks = if d.onErrorConfigured then [e] else [])
  ∧ (∀ v, (d.dispatch data).result = .ok v → (d.dispatch data).errorCallbacks = [])
  ∧ (d.dispatch data).result = (d.dispatch_sync data).result
  ∧ (d.dispatch_sync data).errorCallbacks = [] := by
  unfold Dispatcher.dispatch Dispatcher.dispatch_sync
  cases hi : Dispatcher.dispatchInner d data with
  | mk r calls =>
    cases r with
    | error e =>
      refine ⟨?_, ?_, rfl, rfl⟩
      · intro e' he'
        injection he' with he'
        rw [← he']
      · intro v hv
        cases hv
    | ok v =>
      refine ⟨?_, fun _ _ => rfl, rfl, rfl⟩
      intro e' he'
      cases he'

/-- C7 witness: at a concrete failing dispatch with the callback
configured, `dispatch` delivers exactly the raised error to the callback
and still raises it, while `dispatch_sync` delivers nothing. -/
theorem c7_amended_error_callback_witness :
    ((Dispatcher.dispatch
        { decode := fun _ => .error "Expecting value", members := [],
          handler := .base [], onErrorConfigured := true }
        (.text "oops")).errorCallbacks
      = [.parseError "Invalid JSON: Expecting value"])
  ∧ ((Dispatcher.dispatch
        { decode := fun _ => .error "Expecting value", members := [],
          handler := .base [], onErrorConfigured := true }
        (.text "oops")).result
      = (Dispatcher.dispatch_sync
          { decode := fun _ => .error "Expecting value", members := [],
            handler := .base [], onErrorConfigured := true }
          (.text "oops")).result) := by
  refine ⟨?_, (c7_amended_error_callback _ _).2.2.1⟩
  have h := (c7_amended_error_callback
    { decode := fun _ => .error "Expecting value", members := [],
      handler := .base [], onErrorConfigured := true }
    (.text "oops")).1 (.parseError "Invalid JSON: Expecting value") rfl
  rw [h]
  rfl

/-! ## Claim C10 — non-object decoded values -/

/-- C10: for every dispatch input that decodes to (or directly is) a
non-object value, `Dispatcher.parse`, `Dispatcher.dispatch`,
`Dispatcher.dispatch_sync` and `MultiDispatcher.dispatch` all raise
`ParseError` and no handler is invoked. -/
theorem c10_nonobject_parse_error (d : Dispatcher) (m : MultiDispatcher) :
    (∀ v : JsonValue, v.isObj = false →
        d.parse (.value v) = .error (.parseError "Message must be a JSON object")
      ∧ (d.dispatch (.value v)).result
          = .error (.parseError "Message must be a JSON object")
      ∧ (d.dispatch (.value v)).handlerCalls = []
      ∧ (d.dispatch_sync (.value v)).result
          = .error (.parseError "Message must be a JSON object")
      ∧ (d.dispatch_sync (.value v)).handlerCalls = []
      ∧ (m.dispatch (.value v)).result
          = .error (.parseError "Message must be a JSON object")
      ∧ (m.dispatch (.value v)).handlerCalls = [])
  ∧ (∀ (s : String) (v : JsonValue), d.decode s = .ok v → v.isObj = false →
        d.parse (.text s) = .error (.parseError "Message must be a JSON object")
      ∧ (d.dispatch (.text s)).result
          = .error (.parseError "Message must be a JSON object")
      ∧ (d.dispatch (.text s)).handlerCalls = [])
  ∧ (∀ (s : String) (v : JsonValue), m.decode s = .ok v → v.isObj = false →
        (m.dispatch (.text s)).result
          = .error (.parseError "Message must be a JSON object")
      ∧ (m.dispatch (.text s)).handlerCalls = []) := by
  refine ⟨?_, ?_, ?_⟩
  · intro v hv
    have hparse : d.parse (.value v)
        = .error (.parseError "Message must be a JSON object") := by
      unfold Dispatcher.parse decodeInput
      simp only [Except.bind]
      cases v with
      | prim p => rfl
      | jarr xs => rfl
      | jobj kvs => cases hv
    refine ⟨hparse, ?_, ?_, ?_, ?_, ?_, ?_⟩
    · unfold Dispatcher.dispatch Dispatcher.dispatchInner
      rw [hparse]
    · unfold Dispatcher.dispatch Dispatcher.dispatchInner
      rw [hparse]
    · unfold Dispatcher.dispatch_sync Dispatcher.dispatchInner
      rw [hparse]
    · unfold Dispatcher.dispatch_sync Dispatcher.dispatchInner
      rw [hparse]
    · unfold MultiDispatcher.dispatch decodeInput
      cases v with
      | prim p => rfl
      | jarr xs => rfl
      | jobj kvs => cases hv
    · unfold MultiDispatcher.dispatch decodeInput
      cases v with
      | prim p => rfl
      | jarr xs => rfl
      | jobj kvs => cases hv
  · intro s v hs hv
    have hparse : d.parse (.text s)
        = .error (.parseError "Message must be a JSON object") := by
      simp only [Dispatcher.parse, decodeInput]
      rw [hs]
      simp only [Except.bind]
      cases v with
      | prim p => rfl
      | jarr xs => rfl
      | jobj kvs => cases hv
    refine ⟨hparse, ?_, ?_⟩
    · unfold Dispatcher.dispatch Dispatcher.dispatchInner
      rw [hparse]
    · unfold Dispatcher.dispatch Dispatcher.dispatchInner
      rw [hparse]
  · intro s v hs hv
    constructor
    · simp only [MultiDispatcher.dispatch, decodeInput]
      rw [hs]
      cases v with
      | prim p => rfl
      | jarr xs => rfl
      | jobj kvs => cases hv
    · simp only [MultiDispatcher.dispatch, decodeInput]
      rw [hs]
      cases v with
      | prim p => rfl
      | jarr xs => rfl
      | jobj kvs => cases hv

/-- C10 witness: a JSON array and a JSON number at the concrete entry
points. -/
theorem c10_nonobject_parse_error_witness :
    ((Dispatcher.dispatch
        { decode := fun _ => .ok (.jarr []), members := [], handler := .base [] }
        (.value (.jarr [.jint 1]))).result
      = .error (.parseError "Message must be a JSON object"))
  ∧ ((Dispatcher.dispatch
        { decode := fun _ => .ok (.jarr []), members := [], handler := .base [] }
        (.text "[]")).result
      = .error (.parseError "Message must be a JSON object"))
  ∧ ((MultiDispatcher.dispatch
        { decode := fun _ => .ok (.prim (.jint 5)), members := [] }
        (.value (.prim (.jstr "hi")))).result
      = .error (.parseError "Message must be a JSON object"))
  ∧ ((MultiDispatcher.dispatch
        { decode := fun _ => .ok (.prim (.jint 5)), members := [] }
        (.text "5")).handlerCalls = []) := by
  refine ⟨?_, ?_, ?_, ?_⟩
  · exact ((c10_nonobject_parse_error
      { decode := fun _ => .ok (.jarr []), members := [], handler := .base [] }
      { decode := fun _ => .ok (.prim (.jint 5)), members := [] }).1
      (.jarr [.jint 1]) rfl).2.1
  · exact ((c10_nonobject_parse_error
      { decode := fun _ => .ok (.jarr []), members := [], handler := .base [] }
      { decode := fun _ => .ok (.prim (.jint 5)), members := [] }).2.1
      "[]" (.jarr []) rfl rfl).2.1
  · exact ((c10_nonobject_parse_error
      { decode := fun _ => .ok (.jarr []), members := [], handler := .base [] }
      { decode := fun _ => .ok (.prim (.jint 5)), members := [] }).1
      (.prim (.jstr "hi")) rfl).2.2.2.2.2.1
  · exact ((c10_nonobject_parse_error
      { decode := fun _ => .ok (.jarr []), members := [], handler := .base [] }
      { decode := fun _ => .ok (.prim (.jint 5)), members := [] }).2.2
      "5" (.prim (.jint 5)) rfl rfl).2

/-- If a predicate rejects every element of a prefix, `find?` skips it. -/
theorem find?_append_of_all_neg {α : Type} (p : α → Bool) (l₁ l₂ : List α)
    (h : ∀ a ∈ l₁, p a = false) : (l₁ ++ l₂).find? p = l₂.find? p := by
  induction l₁ with
  | nil => rfl
  | cons a l ih =>
    rw [List.cons_append, List.find?_cons_of_neg _ (by simp [h a (List.mem_cons_self a l)]),
      ih (fun b hb => h b (List.mem_cons_of_mem a hb))]

/-! ## Claim C8 — multi-dispatcher handler resolution -/

/-- C8: `_find_handler` selects the first registered (matcher, handler)
pair, in registration order, whose matcher accepts the event kind and whose
handler's registry also contains that kind; when no pair qualifies the
default handler is used exactly when its own registry contains the kind
(and resolution fails when no default is set); and when resolution fails,
`dispatch` on an object carrying that event kind raises `NoHandlerError`
without invoking any handler. -/
theorem c8_multi_resolution (m : MultiDispatcher) (et : String) :
    (∀ pre p h post,
        m._handlers = pre ++ (p, h) :: post →
        (∀ pr ∈ pre, (pr.1 et && pr.2.handles_event et) = false) →
        (p et && h.handles_event et) = true →
        m._find_handler et = some h)
  ∧ ((∀ pr ∈ m._handlers, (pr.1 et && pr.2.handles_event et) = false) →
        (∀ dh, m._default_handler = some dh →
          m._find_handler et = if dh.handles_event et then some dh else none)
      ∧ (m._default_handler = none → m._find_handler et = none))
  ∧ (∀ kvs, m._find_handler et = none →
        rawEventType kvs m.discriminator = some et →
        (m.dispatch (.value (.jobj kvs))).result = .error (.noHandler et)
      ∧ (m.dispatch (.value (.jobj kvs))).handlerCalls = []) := by
  refine ⟨?_, ?_, ?_⟩
  · intro pre p h post hh hpre hq
    unfold MultiDispatcher._find_handler
    have hc : List.find? (fun pr => pr.1 et && pr.2.handles_event et) ((p, h) :: post)
        = some (p, h) := List.find?_cons_of_pos post hq
    rw [hh, find?_append_of_all_neg _ _ _ hpre, hc]
  · intro hall
    have hf : m._handlers.find? (fun pr => pr.1 et && pr.2.handles_event et) = none :=
      List.find?_eq_none.mpr (fun pr hpr => by simp [hall pr hpr])
    constructor
    · intro dh hdh
      unfold MultiDispatcher._find_handler
      rw [hf, hdh]
    · intro hdd
      unfold MultiDispatcher._find_handler
      rw [hf, hdd]
  · intro kvs hfh hraw
    constructor
    · simp only [MultiDispatcher.dispatch, decodeInput, hraw, hfh]
    · simp only [MultiDispatcher.dispatch, decodeInput, hraw, hfh]

/-- C8 witness: with a first pair whose handler does not claim `chat.send`
and a second pair whose handler does, resolution skips to the second; an
unclaimed kind falls through a set default handler to `none`; and a
dispatcher with no qualifying handler raises `NoHandlerError` on dispatch
without invoking a handler. -/
theorem c8_multi_resolution_witness :
    (MultiDispatcher._find_handler
        { decode := fun _ => .error "x", members := [],
          _handlers := [(fun _ => true, .base []),
                        (fun _ => true, .base [("chat.send", 7)])] }
        "chat.send"
      = some (.base [("chat.send", 7)]))
  ∧ (MultiDispatcher._find_handler
        { decode := fun _ => .error "x", members := [],
          _default_handler := some (.base [("chat.send", 7)]) }
        "presence.ping"
      = none)
  ∧ ((MultiDispatcher.dispatch
        { decode := fun _ => .error "x", members := [] }
        (.value (.jobj [("type", .jstr "ghost")]))).result
      = .error (.noHandler "ghost"))
  ∧ ((MultiDispatcher.dispatch
        { decode := fun _ => .error "x", members := [] }
        (.value (.jobj [("type", .jstr "ghost")]))).handlerCalls = []) := by
  refine ⟨?_, ?_, ?_, ?_⟩
  · exact (c8_multi_resolution
      { decode := fun _ => .error "x", members := [],
        _handlers := [(fun _ => true, .base []),
                      (fun _ => true, .base [("chat.send", 7)])] }
      "chat.send").1
      [(fun _ => true, .base [])] (fun _ => true) (.base [("chat.send", 7)]) []
      rfl
      (by intro pr hpr; rw [List.mem_singleton] at hpr; rw [hpr]; decide)
      (by decide)
  · exact ((c8_multi_resolution
      { decode := fun _ => .error "x", members := [],
        _default_handler := some (.base [("chat.send", 7)]) }
      "presence.ping").2.1
      (by intro pr hpr; cases hpr)).1 (.base [("chat.send", 7)]) rfl |>.trans (by decide)
  · exact ((c8_multi_resolution
      { decode := fun _ => .error "x", members := [] } "ghost").2.2
      [("type", .jstr "ghost")] rfl rfl).1
  · exact ((c8_multi_resolution
      { decode := fun _ => .error "x", members := [] } "ghost").2.2
      [("type", .jstr "ghost")] rfl rfl).2

end EventGen
